import Mathlib

/-!
Shallow embedding of `internal/dbctl/cmd/cluster/create.go` (package `cluster`)
from the kubeblocks dbctl command-line tool, together with theorems checking the
natural-language specification of that file.

Modelling conventions:
* Go's open documents (`map[string]interface{}` / `[]interface{}` obtained from
  YAML → JSON unmarshalling) are modelled by the inductive type `Value`; a Go map
  is an association list of `String × Value` (assignment replaces the first
  binding in place, or appends a fresh one).
* A Go slice that may be `nil` is modelled as `Option (List _)`: `none` is the
  nil slice, `some []` the empty non-nil slice.
* Remote lookups (the dynamic client `Get` calls) and process IO (stdin, HTTP
  GET, file read) are oracles passed in as function arguments returning
  `Except String _`.
* A failing unchecked Go type assertion (a run-time panic) is modelled by the
  dedicated result constructor `crash`, distinct from a returned error.
-/

/-- Open document values, as produced by `yaml.YAMLToJSON` + `json.Unmarshal`
into `interface{}` in Go: strings, booleans, numbers, null, lists and maps.
A map is kept as an ordered association list. -/
inductive Value where
  | str : String → Value
  | bool : Bool → Value
  | num : Int → Value
  | null : Value
  | list : List Value → Value
  | map : List (String × Value) → Value

/-- A Go `map[string]interface{}` (one component record, or one fetched
resource object). -/
abbrev Obj := List (String × Value)

/-- Go map read `m[k]`: the first binding of `k`, if any. -/
def getKey (m : Obj) (k : String) : Option Value :=
  match m with
  | [] => none
  | (k', v) :: rest => if k' = k then some v else getKey rest k

/-- Go map assignment `m[k] = v`: replace the first binding of `k` in place,
or append a fresh binding when `k` is absent. -/
def setKey (m : Obj) (k : String) (v : Value) : Obj :=
  match m with
  | [] => [(k, v)]
  | (k', v') :: rest => if k' = k then (k, v) :: rest else (k', v') :: setKey rest k v

/-! ## `setMonitor` (create.go lines 100–107)

```go
func setMonitor(monitor bool, components []map[string]interface{}) {
    if components == nil {
        return
    }
    for _, component := range components {
        component[monitorKey] = monitor
    }
}
```
-/

/-- `monitorKey` constant from create.go. -/
def monitorKey : String := "monitor"

/-- Embedding of `setMonitor`: Go mutates the component maps in place; here the
updated component list is returned. The nil slice (`none`) is left untouched. -/
def setMonitor (monitor : Bool) (components : Option (List Obj)) : Option (List Obj) :=
  match components with
  | none => none
  | some comps => some (comps.map (fun component => setKey component monitorKey (.bool monitor)))

/-! ## `CreateOptions.Validate` (create.go lines 143–156)

```go
func (o *CreateOptions) Validate() error {
    if o.Name == "" { return fmt.Errorf("missing cluster name") }
    if o.TerminationPolicy == "" { return fmt.Errorf("a valid termination policy is needed, ...") }
    if len(o.ComponentsFilePath) == 0 { return fmt.Errorf("a valid component local file path, URL, or stdin is needed") }
    return nil
}
```
-/

/-- The request fields of `CreateOptions` that the pure logic under
verification reads (`Name` is inherited from `create.BaseOptions`). -/
structure CreateOptions where
  name : String
  terminationPolicy : String
  componentsFilePath : String
  backup : String

/-- The four enumerated termination policies of the command surface. -/
def terminationPolicies : List String := ["DoNotTerminate", "Halt", "Delete", "WipeOut"]

/-- Embedding of `Validate`: `some msg` is a returned error, `none` is `nil`. -/
def CreateOptions.Validate (o : CreateOptions) : Option String :=
  if o.name = "" then
    some "missing cluster name"
  else if o.terminationPolicy = "" then
    some "a valid termination policy is needed, use --termination-policy to specify one of: DoNotTerminate, Halt, Delete, WipeOut"
  else if o.componentsFilePath.length = 0 then
    some "a valid component local file path, URL, or stdin is needed"
  else
    none

/-! ## `setBackup` (create.go lines 109–141) -/

/-- A single quote character, used by the Go format string `'%v'`. -/
def quoteStr : String := String.singleton (Char.ofNat 39)

/-- The message of `fmt.Errorf("only support snapshot backup, specified backup
type is '%v'", backupType)`. -/
def backupTypeErrMsg (backupType : String) : String :=
  "only support snapshot backup, specified backup type is " ++ quoteStr ++ backupType ++ quoteStr

/-- Embedding of `unstructured.NestedString(backupJobObj.Object, "spec",
"backupType")` with the `found`/`err` results discarded (`backupType, _, _ :=`):
a missing path, a non-map `spec`, or a non-string `backupType` all yield the
zero value `""`. -/
def extractBackupType (obj : Obj) : String :=
  match getKey obj "spec" with
  | some (.map specMap) =>
    match getKey specMap "backupType" with
    | some (.str s) => s
    | _ => ""
  | _ => ""

/-- `true` iff the object really carries a string field at `spec.backupType`. -/
def hasBackupTypeString (obj : Obj) : Bool :=
  match getKey obj "spec" with
  | some (.map specMap) =>
    match getKey specMap "backupType" with
    | some (.str _) => true
    | _ => false
  | _ => false

/-- The `dataSource` map built by the three `unstructured.SetNestedField` calls
on a fresh empty map. -/
def dataSourceObj (backup : String) : Obj :=
  setKey (setKey (setKey [] "name" (.str backup))
    "kind" (.str "VolumeSnapshot"))
    "apiGroup" (.str "snapshot.storage.k8s.io")

/-- Embedding of `unstructured.SetNestedField(templateMap, dataSource, "spec",
"dataSource")` with its error discarded (`_ =`): when the `spec` entry exists
but is not a map, `SetNestedField` returns an error and writes nothing, so the
template is left unchanged. -/
def setTemplateDataSource (ds : Obj) (templateMap : Obj) : Obj :=
  match getKey templateMap "spec" with
  | some (.map specMap) => setKey templateMap "spec" (.map (setKey specMap "dataSource" (.map ds)))
  | some _ => templateMap
  | none => setKey templateMap "spec" (.map [("dataSource", .map ds)])

/-- Nested two-level read, in the style of `unstructured.NestedFieldNoCopy
(m, k1, k2)`: `none` when the path is missing or `k1` is not a map. -/
def getNested2 (m : Obj) (k1 k2 : String) : Option Value :=
  match getKey m k1 with
  | some (.map n) => getKey n k2
  | _ => none

/-- A template map on which `SetNestedField(..., "spec", "dataSource")`
succeeds: its `spec` entry is absent or is itself a map. -/
def specShapeOk (m : Obj) : Bool :=
  match getKey m "spec" with
  | some (.map _) => true
  | some _ => false
  | none => true

/-- The inner loop `for _, t := range templates`, with the unchecked assertion
`t.(map[string]interface{})`: `none` models the panic on a non-map entry. -/
def restoreTemplates (ds : Obj) : List Value → Option (List Value)
  | [] => some []
  | t :: ts =>
    match t with
    | .map m =>
      match restoreTemplates ds ts with
      | some ts' => some (.map (setTemplateDataSource ds m) :: ts')
      | none => none
    | _ => none

/-- One iteration of `for _, component := range components`, with the unchecked
assertion `component["volumeClaimTemplates"].([]interface{})`: a missing or
non-list field panics (`none`). -/
def restoreComp (ds : Obj) (component : Obj) : Option Obj :=
  match getKey component "volumeClaimTemplates" with
  | some (.list ts) =>
    match restoreTemplates ds ts with
    | some ts' => some (setKey component "volumeClaimTemplates" (.list ts'))
    | none => none
  | _ => none

/-- The outer component loop of `setBackup`. -/
def restoreComps (ds : Obj) : List Obj → Option (List Obj)
  | [] => some []
  | c :: cs =>
    match restoreComp ds c with
    | some c' =>
      match restoreComps ds cs with
      | some cs' => some (c' :: cs')
      | none => none
    | none => none

/-- Result of `setBackup`. Go mutates the component list in place and returns
an `error`; here every normal exit carries the list as it stands on return:
`ok` is a `nil` error, `err` a returned error (its second argument is the
component list, untouched since the error paths run before the mutation loop),
and `crash` a run-time panic from an unchecked type assertion. -/
inductive BackupResult where
  | ok : Option (List Obj) → BackupResult
  | err : String → Option (List Obj) → BackupResult
  | crash : BackupResult

/-- Discriminator: did `setBackup` return a (non-nil) error? -/
def BackupResult.isErr : BackupResult → Bool
  | .err _ _ => true
  | _ => false

/-- Embedding of `setBackup`. `lookupBackupJob` is the oracle for
`o.Client.Resource(gvr).Namespace(o.Namespace).Get(..., backup, ...)`. -/
def setBackup (backup : String) (lookupBackupJob : String → Except String Obj)
    (components : Option (List Obj)) : BackupResult :=
  if backup.length = 0 then .ok components
  else
    match components with
    | none => .ok none
    | some comps =>
      match lookupBackupJob backup with
      | .error e => .err e (some comps)
      | .ok backupJobObj =>
        let backupType := extractBackupType backupJobObj
        if backupType ≠ "snapshot" then .err (backupTypeErrMsg backupType) (some comps)
        else
          match restoreComps (dataSourceObj backup) comps with
          | some comps' => .ok (some comps')
          | none => .crash

/-! ## `multipleSourceComponents` (create.go lines 185–206)

```go
switch {
case fileName == "-":                          data = streams.In
case strings.Index(fileName, "http://") == 0 ||
     strings.Index(fileName, "https://") == 0: resp, err := http.Get(fileName); ...
default:                                       f, err := os.Open(fileName); ...
}
return io.ReadAll(data)
```
-/

/-- Raw byte content of a source. -/
abbrev Bytes := List Nat

/-- The three effectful sources behind `multipleSourceComponents`, as oracles:
reading the caller-provided input stream to end-of-stream, one blocking HTTP
GET returning the full body, and one full local-file read. An `Except.error`
is a failed open/connect/read. -/
structure SourceStreams where
  stdinAll : Except String Bytes
  httpGet : String → Except String Bytes
  readFile : String → Except String Bytes

/-- Embedding of `multipleSourceComponents`: dispatch on the locator string,
then read the chosen source to completion. -/
def multipleSourceComponents (fileName : String) (streams : SourceStreams) :
    Except String Bytes :=
  if fileName = "-" then
    streams.stdinAll
  else if fileName.startsWith "http://" || fileName.startsWith "https://" then
    streams.httpGet fileName
  else
    streams.readFile fileName

/-! ## `PreCreate` / `setEnableAllLogs` (create.go lines 246–287)

The typed `dbaasv1alpha1.Cluster` / `ClusterDefinition` structures live in an
external module (`apis/dbaas/v1alpha1`); only the fields this file reads are
embedded. The `runtime.DefaultUnstructuredConverter` round trip between the
unstructured document and the typed form is an external collaborator and is
elided: `PreCreate` is modelled directly on the typed cluster document. -/

/-- One entry of `ClusterDefinition.Spec.Components[].LogConfigs`. -/
structure LogConfig where
  name : String

/-- One entry of `ClusterDefinition.Spec.Components`: the component type name
and its declared log configurations, in order. -/
structure ClusterDefComponent where
  typeName : String
  logConfigs : List LogConfig

/-- The cluster-definition fields read by `setEnableAllLogs`. -/
structure ClusterDefinition where
  components : List ClusterDefComponent

/-- One entry of `Cluster.Spec.Components`: the fields read and written by
`setEnableAllLogs` (`Type` read, `EnabledLogs` overwritten). -/
structure ClusterComponent where
  type : String
  enabledLogs : List String

/-- The cluster fields read by `PreCreate`: the referenced cluster definition
name and the component list. -/
structure Cluster where
  clusterDefRef : String
  components : List ClusterComponent

/-- Embedding of Go `strings.EqualFold`: case-insensitive string equality by
per-character simple case folding. -/
def equalFold (a b : String) : Bool :=
  a.data.map Char.toLower == b.data.map Char.toLower

/-- The inner loop of `setEnableAllLogs` for one cluster component: every
matching definition entry overwrites `EnabledLogs` in turn (the loop does not
break), so the last match wins; with no match the component is unchanged. -/
def applyLogDefs (defs : List ClusterDefComponent) (comCluster : ClusterComponent) :
    ClusterComponent :=
  match defs with
  | [] => comCluster
  | com :: rest =>
    applyLogDefs rest
      (if equalFold comCluster.type com.typeName then
        { comCluster with enabledLogs := com.logConfigs.map LogConfig.name }
      else comCluster)

/-- Embedding of `setEnableAllLogs` (create.go lines 274–287). -/
def setEnableAllLogs (c : Cluster) (cd : ClusterDefinition) : Cluster :=
  { c with components := c.components.map (applyLogDefs cd.components) }

/-- Embedding of `PreCreate` (create.go lines 246–271): the returned `Nat`
counts remote cluster-definition lookups performed. When `EnableAllLogs` is
false the function returns immediately; otherwise it fetches the referenced
cluster definition once and rewrites the document via `setEnableAllLogs`. -/
def PreCreate (enableAllLogs : Bool)
    (lookupClusterDef : String → Except String ClusterDefinition)
    (obj : Cluster) : Except String (Cluster × Nat) :=
  if !enableAllLogs then .ok (obj, 0)
  else
    match lookupClusterDef obj.clusterDefRef with
    | .error e => .error e
    | .ok cd => .ok (setEnableAllLogs obj cd, 1)

/-! ## General helper lemmas -/

theorem getKey_setKey_self (m : Obj) (k : String) (v : Value) :
    getKey (setKey m k v) k = some v := by
  induction m with
  | nil => simp [setKey, getKey]
  | cons hd tl ih =>
    obtain ⟨k', v'⟩ := hd
    by_cases h : k' = k <;> simp [setKey, getKey, h, ih]

theorem getKey_setKey_ne (m : Obj) (k k' : String) (v : Value) (h : k ≠ k') :
    getKey (setKey m k v) k' = getKey m k' := by
  induction m with
  | nil => simp [setKey, getKey, h]
  | cons hd tl ih =>
    obtain ⟨k0, v0⟩ := hd
    by_cases h0 : k0 = k
    · subst h0
      simp [setKey, getKey, h]
    · simp [setKey, getKey, h0, ih]

theorem setKey_setKey (m : Obj) (k : String) (v w : Value) :
    setKey (setKey m k v) k w = setKey m k w := by
  induction m with
  | nil => simp [setKey]
  | cons hd tl ih =>
    obtain ⟨k0, v0⟩ := hd
    by_cases h0 : k0 = k
    · simp [setKey, h0]
    · simp [setKey, h0, ih]

theorem string_length_zero_iff (s : String) : s.length = 0 ↔ s = "" := by
  constructor
  · intro h
    cases s with
    | mk data =>
      cases data with
      | nil => rfl
      | cons c cs => simp [String.length] at h
  · intro h
    subst h
    rfl

theorem setMonitor_setMonitor (a b : Bool) (components : Option (List Obj)) :
    setMonitor b (setMonitor a components) = setMonitor b components := by
  cases components with
  | none => rfl
  | some l =>
    simp [setMonitor, List.map_map, Function.comp_def, setKey_setKey]

/-! ## Claim theorems: Validate -/

/-- C1 counterexample: the options value with name `"mycluster"`, termination
policy `"Foo"` and components path `"component.yaml"` passes `Validate`
(`none` is a nil error), although `"Foo"` is not one of the four enumerated
termination policies — so `Validate` does not reject every string outside the
enumeration. -/
theorem validate_acceptsNonEnumeratedPolicy :
    CreateOptions.Validate ⟨"mycluster", "Foo", "component.yaml", ""⟩ = none ∧
    "Foo" ∉ terminationPolicies := by
  exact ⟨rfl, by decide⟩

/-- C1 (amended): the terminationPolicy check of `Validate` only tests for the
empty string: with the other checked fields non-empty, an empty
terminationPolicy is rejected with the policy error message, and every
non-empty terminationPolicy — in particular each of the four enumerated
values, but also any other non-empty string — passes `Validate`. -/
theorem validate_terminationPolicy_emptyCheck (o : CreateOptions)
    (hn : o.name ≠ "") (hf : o.componentsFilePath ≠ "") :
    (o.terminationPolicy = "" →
      o.Validate = some "a valid termination policy is needed, use --termination-policy to specify one of: DoNotTerminate, Halt, Delete, WipeOut") ∧
    (o.terminationPolicy ≠ "" → o.Validate = none) ∧
    (o.terminationPolicy ∈ terminationPolicies → o.Validate = none) := by
  have hflen : ¬ o.componentsFilePath.length = 0 :=
    fun h => hf ((string_length_zero_iff _).mp h)
  refine ⟨?_, ?_, ?_⟩
  · intro h
    simp [CreateOptions.Validate, hn, h]
  · intro h
    simp [CreateOptions.Validate, hn, h, hflen]
  · intro h
    have hne : o.terminationPolicy ≠ "" := by
      intro he
      rw [he] at h
      simp [terminationPolicies] at h
    simp [CreateOptions.Validate, hn, hne, hflen]

/-- Witness for C1's amended theorem at a concrete input: the options value
with name `"a"`, termination policy `"Halt"` and components path `"f"` passes
`Validate`. -/
theorem validate_terminationPolicy_emptyCheck_witness :
    CreateOptions.Validate ⟨"a", "Halt", "f", ""⟩ = none :=
  (validate_terminationPolicy_emptyCheck ⟨"a", "Halt", "f", ""⟩ (by decide) (by decide)).2.1
    (by decide)

/-! ## Claim theorems: `PreCreate` / `setMonitor` / `multipleSourceComponents` -/

/-- C5: when `EnableAllLogs` is false, `PreCreate` returns a nil error, leaves
the materialized document entirely unchanged, and performs zero remote
cluster-definition lookups, whatever the lookup oracle would answer. -/
theorem preCreate_disabled_noop
    (lookupClusterDef : String → Except String ClusterDefinition) (obj : Cluster) :
    PreCreate false lookupClusterDef obj = .ok (obj, 0) := rfl

/-- C6: `setMonitor` is a no-op on the nil component list, and on a non-nil
list it writes the `monitor` field of every component to the given boolean —
overwriting whatever was there — while leaving every other field of every
component unchanged; the list keeps its length. -/
theorem setMonitor_overwrites_every_component (monitor : Bool) :
    setMonitor monitor none = none ∧
    ∀ l l', setMonitor monitor (some l) = some l' →
      l'.length = l.length ∧
      ∀ i, i < l.length → ∀ c c', l[i]? = some c → l'[i]? = some c' →
        getKey c' monitorKey = some (.bool monitor) ∧
        ∀ k, k ≠ monitorKey → getKey c' k = getKey c k := by
  refine ⟨rfl, ?_⟩
  intro l l' h
  simp only [setMonitor, Option.some.injEq] at h
  subst h
  refine ⟨by simp, ?_⟩
  intro i hi c c' hc hc'
  rw [List.getElem?_map, hc] at hc'
  simp only [Option.map_some', Option.some.injEq] at hc'
  subst hc'
  exact ⟨getKey_setKey_self _ _ _, fun k hk => getKey_setKey_ne _ _ _ _ (Ne.symm hk)⟩

/-- Witness for C6 at a concrete input: on the one-component list whose
component has `monitor` already set to `false`, `setMonitor true` overwrites
the field to `true`. -/
theorem setMonitor_overwrites_every_component_witness :
    getKey (setKey [("monitor", Value.bool false)] monitorKey (Value.bool true)) monitorKey
      = some (Value.bool true) :=
  (((setMonitor_overwrites_every_component true).2
      [[("monitor", Value.bool false)]]
      [setKey [("monitor", Value.bool false)] monitorKey (Value.bool true)] rfl).2
    0 (by decide) [("monitor", Value.bool false)]
    (setKey [("monitor", Value.bool false)] monitorKey (Value.bool true)) rfl rfl).1

/-- C7: `setMonitor` is idempotent — running it twice with the same boolean
equals running it once — and running it with `false` after `true` leaves the
`monitor` field equal to `false` on every component of the resulting list. -/
theorem setMonitor_idempotent_and_clears (monitor : Bool) (components : Option (List Obj)) :
    setMonitor monitor (setMonitor monitor components) = setMonitor monitor components ∧
    ∀ l, setMonitor false (setMonitor true components) = some l →
      ∀ c ∈ l, getKey c monitorKey = some (.bool false) := by
  refine ⟨setMonitor_setMonitor _ _ _, ?_⟩
  intro l h c hc
  rw [setMonitor_setMonitor] at h
  cases components with
  | none => simp [setMonitor] at h
  | some l0 =>
    simp only [setMonitor, Option.some.injEq] at h
    subst h
    simp only [List.mem_map] at hc
    obtain ⟨c0, _, rfl⟩ := hc
    exact getKey_setKey_self _ _ _

/-- Witness for C7 at a concrete input: on the singleton list holding the
empty component, `setMonitor false` after `setMonitor true` leaves the
`monitor` field at `false`. -/
theorem setMonitor_idempotent_and_clears_witness :
    getKey (setKey (setKey [] monitorKey (Value.bool true)) monitorKey (Value.bool false))
      monitorKey = some (Value.bool false) :=
  (setMonitor_idempotent_and_clears true (some [[]])).2
    [setKey (setKey [] monitorKey (Value.bool true)) monitorKey (Value.bool false)] rfl
    (setKey (setKey [] monitorKey (Value.bool true)) monitorKey (Value.bool false))
    (List.mem_singleton.mpr rfl)

/-- C8: `multipleSourceComponents` dispatches on the locator string: the exact
string `"-"` reads the provided input stream; otherwise a locator beginning
with `"http://"` or `"https://"` performs the single HTTP GET and returns its
full body; any other locator reads the local file; and a failing source
surfaces as an error with no byte output. -/
theorem multipleSourceComponents_dispatch (fileName : String) (streams : SourceStreams) :
    (fileName = "-" → multipleSourceComponents fileName streams = streams.stdinAll) ∧
    (fileName ≠ "-" →
      (fileName.startsWith "http://" = true ∨ fileName.startsWith "https://" = true) →
      multipleSourceComponents fileName streams = streams.httpGet fileName) ∧
    (fileName ≠ "-" → fileName.startsWith "http://" = false →
      fileName.startsWith "https://" = false →
      multipleSourceComponents fileName streams = streams.readFile fileName) ∧
    (∀ e bs, multipleSourceComponents fileName streams = .error e →
      multipleSourceComponents fileName streams ≠ .ok bs) := by
  refine ⟨?_, ?_, ?_, ?_⟩
  · intro h
    simp [multipleSourceComponents, h]
  · intro h hp
    rcases hp with hp | hp <;> simp [multipleSourceComponents, h, hp]
  · intro h h1 h2
    simp [multipleSourceComponents, h, h1, h2]
  · intro e bs he hok
    rw [he] at hok
    simp at hok

/-- Witness for C8 at a concrete input: the locator `"-"` returns exactly the
bytes of the provided input stream. -/
theorem multipleSourceComponents_dispatch_witness :
    multipleSourceComponents "-"
      ⟨Except.ok [104, 105], fun _ => Except.error "net", fun _ => Except.error "fs"⟩
      = Except.ok [104, 105] :=
  (multipleSourceComponents_dispatch "-"
      ⟨Except.ok [104, 105], fun _ => Except.error "net", fun _ => Except.error "fs"⟩).1 rfl

/-! ## Claim theorems: `setEnableAllLogs` -/

theorem applyLogDefs_type (defs : List ClusterDefComponent) (c : ClusterComponent) :
    (applyLogDefs defs c).type = c.type := by
  induction defs generalizing c with
  | nil => rfl
  | cons d ds ih =>
    show (applyLogDefs ds _).type = c.type
    by_cases h : equalFold c.type d.typeName = true <;> simp [h, ih]

theorem applyLogDefs_no_match (defs : List ClusterDefComponent) (c : ClusterComponent)
    (h : ∀ d ∈ defs, ¬ equalFold c.type d.typeName = true) :
    applyLogDefs defs c = c := by
  induction defs with
  | nil => rfl
  | cons d ds ih =>
    have hd := h d (List.mem_cons_self d ds)
    show applyLogDefs ds _ = c
    rw [if_neg hd]
    exact ih (fun d' hd' => h d' (List.mem_cons_of_mem d hd'))

theorem applyLogDefs_unique_match (defs : List ClusterDefComponent) (c : ClusterComponent)
    (L : List String)
    (hex : ∃ d ∈ defs, equalFold c.type d.typeName = true)
    (hall : ∀ d ∈ defs, equalFold c.type d.typeName = true →
      d.logConfigs.map LogConfig.name = L) :
    (applyLogDefs defs c).enabledLogs = L := by
  induction defs generalizing c with
  | nil => exact absurd hex (by simp)
  | cons d ds ih =>
    by_cases hd : equalFold c.type d.typeName = true
    · show (applyLogDefs ds _).enabledLogs = L
      rw [if_pos hd]
      set c' : ClusterComponent := { c with enabledLogs := d.logConfigs.map LogConfig.name }
        with hc'
      have htype : c'.type = c.type := rfl
      by_cases hex' : ∃ d' ∈ ds, equalFold c'.type d'.typeName = true
      · exact ih c' hex'
          (fun d' hd' hm => hall d' (List.mem_cons_of_mem d hd') (htype ▸ hm))
      · rw [applyLogDefs_no_match ds c' (by
          intro d' hd' hm
          exact hex' ⟨d', hd', hm⟩)]
        rw [hc']
        exact hall d (List.mem_cons_self d ds) hd
    · show (applyLogDefs ds _).enabledLogs = L
      rw [if_neg hd]
      obtain ⟨d0, hd0, hm0⟩ := hex
      rcases List.mem_cons.mp hd0 with rfl | hd0'
      · exact absurd hm0 hd
      · exact ih c ⟨d0, hd0', hm0⟩ (fun d' hd' hm => hall d' (List.mem_cons_of_mem d hd') hm)

/-- C4: `setEnableAllLogs` keeps the component list's length and, for each
cluster component: when no cluster-definition component's type name matches the
component's type under case-insensitive comparison, the component — in
particular its `EnabledLogs` — is left unchanged; when exactly one definition
entry matches, the component's `EnabledLogs` is overwritten with exactly the
ordered list of the log-configuration names declared by that entry. -/
theorem setEnableAllLogs_overwrite_matching (c : Cluster) (cd : ClusterDefinition) :
    (setEnableAllLogs c cd).clusterDefRef = c.clusterDefRef ∧
    (setEnableAllLogs c cd).components.length = c.components.length ∧
    ∀ (i : Nat) (comp comp' : ClusterComponent), c.components[i]? = some comp →
      (setEnableAllLogs c cd).components[i]? = some comp' →
      ((∀ d ∈ cd.components, ¬ equalFold comp.type d.typeName = true) → comp' = comp) ∧
      (∀ d ∈ cd.components, equalFold comp.type d.typeName = true →
        (∀ d' ∈ cd.components, equalFold comp.type d'.typeName = true → d' = d) →
        comp'.enabledLogs = d.logConfigs.map LogConfig.name) := by
  refine ⟨rfl, by simp [setEnableAllLogs], ?_⟩
  intro i comp comp' hc hc'
  simp only [setEnableAllLogs, List.getElem?_map, hc, Option.map_some',
    Option.some.injEq] at hc'
  subst hc'
  constructor
  · intro hno
    exact applyLogDefs_no_match _ _ hno
  · intro d hd hm huniq
    exact applyLogDefs_unique_match _ _ _ ⟨d, hd, hm⟩
      (fun d' hd' hm' => by rw [huniq d' hd' hm'])

/-- Witness for C4 at a concrete input: a component of type `"T1"` matches the
single definition entry of type name `"t1"` case-insensitively, and its
`EnabledLogs` is overwritten with the declared names `["error", "slow"]`. -/
theorem setEnableAllLogs_overwrite_matching_witness :
    (applyLogDefs [⟨"t1", [⟨"error"⟩, ⟨"slow"⟩]⟩] ⟨"T1", ["old"]⟩).enabledLogs
      = ["error", "slow"] :=
  ((setEnableAllLogs_overwrite_matching ⟨"cd", [⟨"T1", ["old"]⟩]⟩
      ⟨[⟨"t1", [⟨"error"⟩, ⟨"slow"⟩]⟩]⟩).2.2 0 ⟨"T1", ["old"]⟩
      (applyLogDefs [⟨"t1", [⟨"error"⟩, ⟨"slow"⟩]⟩] ⟨"T1", ["old"]⟩) rfl rfl).2
    ⟨"t1", [⟨"error"⟩, ⟨"slow"⟩]⟩ (List.mem_singleton.mpr rfl) (by decide)
    (fun d' hd' _ => List.mem_singleton.mp hd')

/-! ## Claim theorems: `setBackup` -/

theorem setTemplateDataSource_writes (ds m : Obj) (h : specShapeOk m = true) :
    getNested2 (setTemplateDataSource ds m) "spec" "dataSource" = some (.map ds) := by
  cases hg : getKey m "spec" with
  | none =>
    simp only [setTemplateDataSource, hg]
    simp only [getNested2, getKey_setKey_self]
    simp [getKey]
  | some v =>
    cases v with
    | str s => simp [specShapeOk, hg] at h
    | bool b => simp [specShapeOk, hg] at h
    | num n => simp [specShapeOk, hg] at h
    | null => simp [specShapeOk, hg] at h
    | list l => simp [specShapeOk, hg] at h
    | map specMap =>
      simp only [setTemplateDataSource, hg]
      simp [getNested2, getKey_setKey_self]

theorem restoreTemplates_writes (ds : Obj) (ts : List Value)
    (h : ∀ t ∈ ts, ∃ m, t = .map m ∧ specShapeOk m = true) :
    ∃ ts', restoreTemplates ds ts = some ts' ∧ ts'.length = ts.length ∧
      ∀ t' ∈ ts', ∃ m', t' = .map m' ∧
        getNested2 m' "spec" "dataSource" = some (.map ds) := by
  induction ts with
  | nil => exact ⟨[], rfl, rfl, by simp⟩
  | cons t ts ih =>
    obtain ⟨m, ht, hok⟩ := h t (List.mem_cons_self t ts)
    subst ht
    obtain ⟨ts', h1, h2, h3⟩ := ih (fun t' ht' => h t' (List.mem_cons_of_mem _ ht'))
    refine ⟨.map (setTemplateDataSource ds m) :: ts', ?_, by simp [h2], ?_⟩
    · simp [restoreTemplates, h1]
    · intro t' ht'
      rcases List.mem_cons.mp ht' with rfl | ht'
      · exact ⟨_, rfl, setTemplateDataSource_writes ds m hok⟩
      · exact h3 t' ht'

theorem restoreComp_writes (ds component : Obj)
    (hc : ∃ ts, getKey component "volumeClaimTemplates" = some (.list ts) ∧
      ∀ t ∈ ts, ∃ m, t = .map m ∧ specShapeOk m = true) :
    ∃ component', restoreComp ds component = some component' ∧
      ∃ ts', getKey component' "volumeClaimTemplates" = some (.list ts') ∧
        ∀ t' ∈ ts', ∃ m', t' = .map m' ∧
          getNested2 m' "spec" "dataSource" = some (.map ds) := by
  obtain ⟨ts, hts, hall⟩ := hc
  obtain ⟨ts', h1, _, h3⟩ := restoreTemplates_writes ds ts hall
  refine ⟨setKey component "volumeClaimTemplates" (.list ts'), ?_, ts', ?_, h3⟩
  · simp [restoreComp, hts, h1]
  · exact getKey_setKey_self _ _ _

theorem restoreComps_writes (ds : Obj) (comps : List Obj)
    (h : ∀ component ∈ comps, ∃ ts,
      getKey component "volumeClaimTemplates" = some (.list ts) ∧
      ∀ t ∈ ts, ∃ m, t = .map m ∧ specShapeOk m = true) :
    ∃ comps', restoreComps ds comps = some comps' ∧ comps'.length = comps.length ∧
      ∀ component' ∈ comps', ∃ ts',
        getKey component' "volumeClaimTemplates" = some (.list ts') ∧
        ∀ t' ∈ ts', ∃ m', t' = .map m' ∧
          getNested2 m' "spec" "dataSource" = some (.map ds) := by
  induction comps with
  | nil => exact ⟨[], rfl, rfl, by simp⟩
  | cons comp comps ih =>
    obtain ⟨comp', h1, hpost⟩ := restoreComp_writes ds comp (h comp (List.mem_cons_self _ _))
    obtain ⟨comps', h2, h3, h4⟩ := ih (fun c hc => h c (List.mem_cons_of_mem _ hc))
    refine ⟨comp' :: comps', ?_, by simp [h3], ?_⟩
    · simp [restoreComps, h1, h2]
    · intro c' hc'
      rcases List.mem_cons.mp hc' with rfl | hc'
      · exact hpost
      · exact h4 c' hc'

theorem restoreTemplates_all_maps (ds : Obj) (ts : List Value)
    (h : ∀ t ∈ ts, ∃ m, t = .map m) :
    ∃ ts', restoreTemplates ds ts = some ts' := by
  induction ts with
  | nil => exact ⟨[], rfl⟩
  | cons t ts ih =>
    obtain ⟨m, ht⟩ := h t (List.mem_cons_self t ts)
    subst ht
    obtain ⟨ts', h1⟩ := ih (fun t' ht' => h t' (List.mem_cons_of_mem _ ht'))
    exact ⟨.map (setTemplateDataSource ds m) :: ts', by simp [restoreTemplates, h1]⟩

theorem restoreComps_all_shaped (ds : Obj) (comps : List Obj)
    (h : ∀ component ∈ comps, ∃ ts,
      getKey component "volumeClaimTemplates" = some (.list ts) ∧
      ∀ t ∈ ts, ∃ m, t = .map m) :
    ∃ comps', restoreComps ds comps = some comps' := by
  induction comps with
  | nil => exact ⟨[], rfl⟩
  | cons comp comps ih =>
    obtain ⟨ts, hts, hmaps⟩ := h comp (List.mem_cons_self _ _)
    obtain ⟨ts', h1⟩ := restoreTemplates_all_maps ds ts hmaps
    obtain ⟨comps', h2⟩ := ih (fun c hc => h c (List.mem_cons_of_mem _ hc))
    exact ⟨setKey comp "volumeClaimTemplates" (.list ts') :: comps',
      by simp [restoreComps, restoreComp, hts, h1, h2]⟩

theorem extractBackupType_empty_of_missing (obj : Obj)
    (h : hasBackupTypeString obj = false) : extractBackupType obj = "" := by
  cases hg : getKey obj "spec" with
  | none => simp [extractBackupType, hg]
  | some v =>
    cases v with
    | map specMap =>
      cases hb : getKey specMap "backupType" with
      | none => simp [extractBackupType, hg, hb]
      | some w =>
        cases w with
        | str s => simp [hasBackupTypeString, hg, hb] at h
        | bool b => simp [extractBackupType, hg, hb]
        | num n => simp [extractBackupType, hg, hb]
        | null => simp [extractBackupType, hg, hb]
        | list l => simp [extractBackupType, hg, hb]
        | map mm => simp [extractBackupType, hg, hb]
    | str s => simp [extractBackupType, hg]
    | bool b => simp [extractBackupType, hg]
    | num n => simp [extractBackupType, hg]
    | null => simp [extractBackupType, hg]
    | list l => simp [extractBackupType, hg]

/-- C2 counterexample: with the nil component list (`none`), a non-empty
backup reference whose remote backup job carries backupType `"full"` — not
`"snapshot"` — makes `setBackup` return without any error (`ok`): the nil
check at the top of `setBackup` exits before the remote lookup, so no error
naming the found type is produced. -/
theorem setBackup_nilComponents_noError :
    setBackup "snap1"
      (fun _ => Except.ok [("spec", Value.map [("backupType", Value.str "full")])]) none
      = BackupResult.ok none ∧
    extractBackupType [("spec", Value.map [("backupType", Value.str "full")])] = "full" ∧
    (setBackup "snap1"
      (fun _ => Except.ok [("spec", Value.map [("backupType", Value.str "full")])])
      none).isErr = false := ⟨rfl, rfl, rfl⟩

/-- C2 (amended): for every NON-NIL component list and every non-empty backup
reference whose remote backup-job resource has a backup type different from
`"snapshot"`, `setBackup` returns an error whose message names the actual
backup type found, and the component list is returned exactly as passed in —
no component is mutated, since the mutation loop is never reached. -/
theorem setBackup_nonSnapshot_errors_unchanged (backup : String)
    (lookupBackupJob : String → Except String Obj) (comps : List Obj) (obj : Obj)
    (hb : backup ≠ "")
    (hlk : lookupBackupJob backup = .ok obj)
    (ht : extractBackupType obj ≠ "snapshot") :
    setBackup backup lookupBackupJob (some comps)
      = .err (backupTypeErrMsg (extractBackupType obj)) (some comps) := by
  have hl : ¬ backup.length = 0 := fun h => hb ((string_length_zero_iff _).mp h)
  simp [setBackup, hl, hlk, ht]

/-- Witness for C2's amended theorem at a concrete input: backup `"snap1"`
resolving to backupType `"full"` yields the error message about `"full"` and
the untouched one-component list. -/
theorem setBackup_nonSnapshot_errors_unchanged_witness :
    setBackup "snap1"
      (fun _ => Except.ok [("spec", Value.map [("backupType", Value.str "full")])])
      (some [[("name", Value.str "c1")]])
      = .err (backupTypeErrMsg "full") (some [[("name", Value.str "c1")]]) :=
  setBackup_nonSnapshot_errors_unchanged "snap1"
    (fun _ => Except.ok [("spec", Value.map [("backupType", Value.str "full")])])
    [[("name", Value.str "c1")]]
    [("spec", Value.map [("backupType", Value.str "full")])]
    (by decide) rfl (by decide)

/-- C3 counterexample: backup `"snap2"` resolves to backupType `"snapshot"`
and the single component carries a `volumeClaimTemplates` list of maps, yet
`setBackup` succeeds while leaving a template untouched: that template's
`spec` entry is the non-map string `"oops"`, so the ignored
`SetNestedField` error means its nested `spec.dataSource` is absent (`none`)
instead of the required data-source descriptor. -/
theorem setBackup_snapshot_specNonMap_skipped :
    setBackup "snap2"
      (fun _ => Except.ok [("spec", Value.map [("backupType", Value.str "snapshot")])])
      (some [[("volumeClaimTemplates", Value.list [Value.map [("spec", Value.str "oops")]])]])
      = BackupResult.ok
        (some [[("volumeClaimTemplates", Value.list [Value.map [("spec", Value.str "oops")]])]]) ∧
    getNested2 [("spec", Value.str "oops")] "spec" "dataSource" = none ∧
    (none : Option Value) ≠ some (Value.map (dataSourceObj "snap2")) :=
  ⟨rfl, rfl, by simp⟩

/-- C3 (amended): for every non-empty backup reference resolving to a backup
job with backupType exactly `"snapshot"` and every non-nil component list in
which each component carries a `volumeClaimTemplates` list of maps WHOSE `spec`
entry, when present, is itself a map, `setBackup` succeeds and afterwards every
entry of every component's `volumeClaimTemplates` list has its nested
`spec.dataSource` field equal to the descriptor
`{name: <backupReference>, kind: "VolumeSnapshot", apiGroup: "snapshot.storage.k8s.io"}`. -/
theorem setBackup_snapshot_writes_dataSource (backup : String)
    (lookupBackupJob : String → Except String Obj) (comps : List Obj) (obj : Obj)
    (hb : backup ≠ "")
    (hlk : lookupBackupJob backup = .ok obj)
    (ht : extractBackupType obj = "snapshot")
    (hshape : ∀ component ∈ comps, ∃ ts,
      getKey component "volumeClaimTemplates" = some (.list ts) ∧
      ∀ t ∈ ts, ∃ m, t = .map m ∧ specShapeOk m = true) :
    dataSourceObj backup = [("name", Value.str backup), ("kind", Value.str "VolumeSnapshot"),
      ("apiGroup", Value.str "snapshot.storage.k8s.io")] ∧
    ∃ comps', setBackup backup lookupBackupJob (some comps) = .ok (some comps') ∧
      comps'.length = comps.length ∧
      ∀ component' ∈ comps', ∃ ts',
        getKey component' "volumeClaimTemplates" = some (.list ts') ∧
        ∀ t ∈ ts', ∃ m', t = .map m' ∧
          getNested2 m' "spec" "dataSource" = some (.map (dataSourceObj backup)) := by
  have hl : ¬ backup.length = 0 := fun h => hb ((string_length_zero_iff _).mp h)
  obtain ⟨comps', h1, h2, h3⟩ := restoreComps_writes (dataSourceObj backup) comps hshape
  exact ⟨rfl, comps', by simp [setBackup, hl, hlk, ht, h1], h2, h3⟩

/-- Witness for C3's amended theorem at a concrete input: backup `"snap2"`
resolving to backupType `"snapshot"`, one component with one template whose
`spec` is an (empty) map. -/
theorem setBackup_snapshot_writes_dataSource_witness :
    dataSourceObj "snap2" = [("name", Value.str "snap2"), ("kind", Value.str "VolumeSnapshot"),
      ("apiGroup", Value.str "snapshot.storage.k8s.io")] ∧
    ∃ comps', setBackup "snap2"
        (fun _ => Except.ok [("spec", Value.map [("backupType", Value.str "snapshot")])])
        (some [[("volumeClaimTemplates", Value.list [Value.map [("spec", Value.map [])]])]])
        = .ok (some comps') ∧
      comps'.length = 1 ∧
      ∀ component' ∈ comps', ∃ ts',
        getKey component' "volumeClaimTemplates" = some (.list ts') ∧
        ∀ t ∈ ts', ∃ m', t = .map m' ∧
          getNested2 m' "spec" "dataSource" = some (.map (dataSourceObj "snap2")) :=
  setBackup_snapshot_writes_dataSource "snap2"
    (fun _ => Except.ok [("spec", Value.map [("backupType", Value.str "snapshot")])])
    [[("volumeClaimTemplates", Value.list [Value.map [("spec", Value.map [])]])]]
    [("spec", Value.map [("backupType", Value.str "snapshot")])]
    (by decide) rfl rfl
    (by
      intro component hmem
      simp only [List.mem_singleton] at hmem
      subst hmem
      refine ⟨[Value.map [("spec", Value.map [])]], rfl, ?_⟩
      intro t ht
      simp only [List.mem_singleton] at ht
      subst ht
      exact ⟨[("spec", Value.map [])], rfl, rfl⟩)

/-- C9: under the precondition that every component of the (non-nil) list
carries a `volumeClaimTemplates` field shaped as a list of maps, the unchecked
type assertions in `setBackup` never fail — the call never crashes, whatever
the backup reference and lookup outcome — while on a component missing that
field (second conjunct: the empty component) a snapshot-typed backup reference
drives `setBackup` into the failed assertion (a crash, not a reported error). -/
theorem setBackup_assertions_precondition (backup : String)
    (lookupBackupJob : String → Except String Obj) (comps : List Obj)
    (hshape : ∀ component ∈ comps, ∃ ts,
      getKey component "volumeClaimTemplates" = some (.list ts) ∧
      ∀ t ∈ ts, ∃ m, t = .map m) :
    setBackup backup lookupBackupJob (some comps) ≠ BackupResult.crash ∧
    setBackup "b" (fun _ => Except.ok [("spec", Value.map [("backupType", Value.str "snapshot")])])
      (some [[]]) = BackupResult.crash := by
  refine ⟨?_, rfl⟩
  by_cases hl : backup.length = 0
  · simp [setBackup, hl]
  · cases hlk : lookupBackupJob backup with
    | error e => simp [setBackup, hl, hlk]
    | ok obj =>
      by_cases ht : extractBackupType obj = "snapshot"
      · obtain ⟨comps', hc⟩ := restoreComps_all_shaped (dataSourceObj backup) comps hshape
        simp [setBackup, hl, hlk, ht, hc]
      · simp [setBackup, hl, hlk, ht]

/-- Witness for C9 at a concrete input: a component whose
`volumeClaimTemplates` is the empty list satisfies the shape precondition, so
`setBackup` does not crash on it. -/
theorem setBackup_assertions_precondition_witness :
    setBackup "b" (fun _ => Except.ok [("spec", Value.map [("backupType", Value.str "snapshot")])])
      (some [[("volumeClaimTemplates", Value.list [])]]) ≠ BackupResult.crash :=
  (setBackup_assertions_precondition "b"
    (fun _ => Except.ok [("spec", Value.map [("backupType", Value.str "snapshot")])])
    [[("volumeClaimTemplates", Value.list [])]]
    (by
      intro component hmem
      simp only [List.mem_singleton] at hmem
      subst hmem
      exact ⟨[], rfl, by simp⟩)).1

/-- C10: when the resolved backup-job object carries no `spec.backupType`
string field at all, `NestedString` yields the zero value `""`, which is not
`"snapshot"`: `setBackup` rejects the request with the error message naming
`''` (the empty type, quoted) as the found type and returns the component list
exactly as passed in — a missing type field is never accepted. -/
theorem setBackup_missingBackupType_rejected (backup : String)
    (lookupBackupJob : String → Except String Obj) (comps : List Obj) (obj : Obj)
    (hb : backup ≠ "")
    (hlk : lookupBackupJob backup = .ok obj)
    (hmiss : hasBackupTypeString obj = false) :
    extractBackupType obj = "" ∧
    setBackup backup lookupBackupJob (some comps)
      = .err (backupTypeErrMsg "") (some comps) := by
  have hl : ¬ backup.length = 0 := fun h => hb ((string_length_zero_iff _).mp h)
  have he : extractBackupType obj = "" := extractBackupType_empty_of_missing obj hmiss
  refine ⟨he, ?_⟩
  simp [setBackup, hl, hlk, he]

/-- Witness for C10 at a concrete input: a backup job whose `spec` map lacks
`backupType` entirely is rejected with the message naming the empty type. -/
theorem setBackup_missingBackupType_rejected_witness :
    extractBackupType [("spec", Value.map [])] = "" ∧
    setBackup "snap3" (fun _ => Except.ok [("spec", Value.map [])])
      (some [[("name", Value.str "c1")]])
      = .err (backupTypeErrMsg "") (some [[("name", Value.str "c1")]]) :=
  setBackup_missingBackupType_rejected "snap3"
    (fun _ => Except.ok [("spec", Value.map [])])
    [[("name", Value.str "c1")]] [("spec", Value.map [])]
    (by decide) rfl rfl
